import Mathlib

/-!
Verification of the `SdCardUtils` helper (sdcard_utils.py): a shallow
embedding of the class and its collaborators, followed by theorems about
the behaviour its specification claims.

The instance state is a record `St` holding the filesystem (the set of
existing directories, a map from absolute file paths to their contents,
the current working directory maintained by the `uos` layer) together with
the helper's single `_error` string field.  The `uos` / `open` primitives
are external collaborators of the repository; they are modelled from the
specification's description of the filesystem collaborator (directory
listing, change-directory, make-directory, remove-directory, remove-file,
rename-file, file open/read/write/append, current-working-directory
query), with POSIX-style path semantics: a path starting with `/` is
absolute, any other path is resolved against the current working
directory, and the empty path does not resolve.  Exceptions are modelled
with `Except`: a primitive or method returning `.error` is one that
raises; `try`/`except` blocks in the source become `match` recoveries.
-/

set_option autoImplicit false

namespace SdSpec

/-- The combined state: the mounted filesystem plus the helper's
`_error` field.  `dirs` is the list of existing directories (absolute
paths, containing the root `"/"`), `files` maps absolute file paths to
their contents, `cwd` is the process-wide current working directory. -/
structure St where
  dirs : List String
  files : List (String × String)
  cwd : String
  error : String
deriving DecidableEq

/-- `true` iff `s` starts with the character `/` (an absolute path). -/
def isAbs (s : String) : Bool :=
  match s.toList with
  | c :: _ => c = '/'
  | [] => false

/-- Resolve a path against a current working directory, POSIX style:
an absolute path stands for itself, a relative one is appended to the
working directory with a separating `/`. -/
def resolve (cwd p : String) : String :=
  if isAbs p then p
  else if cwd = "/" then "/" ++ p
  else cwd ++ "/" ++ p

/-- `true` iff `s` contains the character `/` (Python's `'/' in s`). -/
def containsSlash (s : String) : Bool :=
  s.toList.contains '/'

/-- Split a string at its last `/`, returning the parts before and after
it, or `none` when there is no `/` (Python's `rfind`-based split used by
`exists`). -/
def splitAtLastSlash (s : String) : Option (String × String) :=
  let r := s.toList.reverse
  match r.dropWhile (fun c => c ≠ '/') with
  | [] => none
  | _ :: restRev =>
      some (String.mk restRev.reverse, String.mk (r.takeWhile (fun c => c ≠ '/')).reverse)

/-- The name part of a path (after the last `/`; the path itself when it
has no `/`). -/
def nameOf (p : String) : String :=
  match splitAtLastSlash p with
  | none => p
  | some q => q.2

/-- The parent directory of a path: the part before the last `/`, with
the root written `"/"`; `""` when the path has no `/` at all. -/
def parentDir (p : String) : String :=
  match splitAtLastSlash p with
  | none => ""
  | some q => if q.1 = "" then "/" else q.1

/-- `true` iff `s` ends with the character `/` (Python `endswith('/')`). -/
def endsWithSlash (s : String) : Bool :=
  match s.toList.reverse with
  | '/' :: _ => true
  | _ => false

/-- Python's substring test `pat in s`. -/
def strContains (s pat : String) : Bool :=
  s.toList.tails.any (fun t => pat.toList.isPrefixOf t)

/-- Fuel-driven worker for `strRemoveAll`; the fuel is an upper bound on
the number of characters still to be scanned, so `fuel = length` never
runs out. -/
def removeAllFuel (pat : List Char) : Nat → List Char → List Char
  | 0, cs => cs
  | _ + 1, [] => []
  | fuel + 1, c :: cs =>
    if pat ≠ [] ∧ pat.isPrefixOf (c :: cs) then
      removeAllFuel pat fuel ((c :: cs).drop pat.length)
    else
      c :: removeAllFuel pat fuel cs

/-- Python's `s.replace(pat, '')`: remove every occurrence of `pat`. -/
def strRemoveAll (pat s : String) : String :=
  String.mk (removeAllFuel pat.toList s.toList.length s.toList)

/-- Fuel-driven worker for `pySplit`. -/
def pySplitFuel (sep : List Char) : Nat → List Char → List (List Char)
  | 0, cs => [cs]
  | _ + 1, [] => [[]]
  | fuel + 1, c :: cs =>
    if sep ≠ [] ∧ sep.isPrefixOf (c :: cs) then
      [] :: pySplitFuel sep fuel ((c :: cs).drop sep.length)
    else
      match pySplitFuel sep fuel cs with
      | [] => [[c]]
      | f :: fs => (c :: f) :: fs

/-- Python's `s.split(sep)` for a non-empty separator. -/
def pySplit (s sep : String) : List String :=
  (pySplitFuel sep.toList s.toList.length s.toList).map String.mk

/-- Split contents into lines the way Python's `readlines` does: each
line keeps its terminating newline; a final fragment without a newline is
returned as-is; empty contents give no lines. -/
def readLinesCh : List Char → List Char → List String
  | [], acc => if acc.isEmpty then [] else [String.mk acc.reverse]
  | c :: cs, acc =>
    if c = '\n' then
      String.mk (acc.reverse ++ ['\n']) :: readLinesCh cs []
    else
      readLinesCh cs (c :: acc)

/-- Python's `f.readlines()` on the given file contents. -/
def readLines (content : String) : List String :=
  readLinesCh content.toList []

/-- Scalar JSON values. -/
inductive JScalar where
  | str (s : String)
  | int (n : Int)
  | bool (b : Bool)
  | null
deriving DecidableEq

/-- JSON documents, as produced and consumed by the JSON collaborator,
restricted to the nesting depth the repository exercises: a scalar, an
array of scalars, or a mapping from string keys to scalars. -/
inductive JVal where
  | scalar (v : JScalar)
  | arr (xs : List JScalar)
  | obj (kvs : List (String × JScalar))
deriving DecidableEq

/-- Serialize one scalar. -/
def jsonDumpsScalar : JScalar → String
  | .str s => "\x22" ++ s ++ "\x22"
  | .int n => toString n
  | .bool b => if b then "true" else "false"
  | .null => "null"

/-- Modelled from the spec: the JSON collaborator's
serialize-mapping-to-text (`json.dumps` with its default `', '` / `': '`
separators), on the JSON fragment the repository exercises (no string
escapes, flat documents). -/
def jsonDumps : JVal → String
  | .scalar v => jsonDumpsScalar v
  | .arr xs =>
      "[" ++ String.intercalate ", " (xs.map jsonDumpsScalar) ++ "]"
  | .obj kvs =>
      "\x7b" ++
        String.intercalate ", "
          (kvs.map (fun kv => "\x22" ++ kv.1 ++ "\x22: " ++ jsonDumpsScalar kv.2)) ++
        "\x7d"

/-- Skip JSON whitespace. -/
def skipWs (cs : List Char) : List Char :=
  cs.dropWhile (fun c => c = ' ' ∨ c = '\n' ∨ c = '\t' ∨ c = '\r')

/-- Digits to a natural number. -/
def digitsToNat (ds : List Char) : Nat :=
  ds.foldl (fun n c => 10 * n + (c.toNat - '0'.toNat)) 0

/-- Parse one scalar, returning it and the unconsumed rest. -/
def parseScalar (cs : List Char) : Option (JScalar × List Char) :=
  match skipWs cs with
  | '"' :: rest =>
      (let p := rest.span (fun c => c ≠ '"')
       match p.2 with
       | '"' :: rest2 => some (.str (String.mk p.1), rest2)
       | _ => none)
  | 't' :: 'r' :: 'u' :: 'e' :: rest => some (.bool true, rest)
  | 'f' :: 'a' :: 'l' :: 's' :: 'e' :: rest => some (.bool false, rest)
  | 'n' :: 'u' :: 'l' :: 'l' :: rest => some (.null, rest)
  | '-' :: rest =>
      (let p := rest.span (fun c => c.isDigit)
       if p.1 = [] then none
       else some (.int (-(digitsToNat p.1 : Int)), p.2))
  | c :: rest =>
      if c.isDigit then
        let p := (c :: rest).span (fun c => c.isDigit)
        some (.int (digitsToNat p.1 : Int), p.2)
      else none
  | [] => none

/-- Array elements `scalar (, scalar)* ]`, with fuel bounding the number
of elements. -/
def parseArrItems : Nat → List Char → Option (List JScalar × List Char)
  | 0, _ => none
  | fuel + 1, cs =>
    match parseScalar cs with
    | none => none
    | some (v, rest) =>
      match skipWs rest with
      | ',' :: rest2 =>
          (match parseArrItems fuel rest2 with
           | some (xs, rest3) => some (v :: xs, rest3)
           | none => none)
      | ']' :: rest2 => some ([v], rest2)
      | _ => none

/-- Object members `"key": scalar (, "key": scalar)* \x7d`, with fuel
bounding the number of members. -/
def parseObjItems : Nat → List Char → Option (List (String × JScalar) × List Char)
  | 0, _ => none
  | fuel + 1, cs =>
    match skipWs cs with
    | '"' :: rest =>
      (let p := rest.span (fun c => c ≠ '"')
       match p.2 with
       | '"' :: rest2 =>
         (match skipWs rest2 with
          | ':' :: rest3 =>
            (match parseScalar rest3 with
             | none => none
             | some (v, rest4) =>
               match skipWs rest4 with
               | ',' :: rest5 =>
                   (match parseObjItems fuel rest5 with
                    | some (kvs, rest6) => some ((String.mk p.1, v) :: kvs, rest6)
                    | none => none)
               | '\x7d' :: rest5 => some ([(String.mk p.1, v)], rest5)
               | _ => none)
          | _ => none)
       | _ => none)
    | _ => none

/-- Parse one document. -/
def parseVal (cs : List Char) : Option (JVal × List Char) :=
  match skipWs cs with
  | '[' :: rest =>
      (match skipWs rest with
       | ']' :: rest2 => some (.arr [], rest2)
       | _ =>
         match parseArrItems (rest.length + 1) (skipWs rest) with
         | some (xs, rest2) => some (.arr xs, rest2)
         | none => none)
  | '\x7b' :: rest =>
      (match skipWs rest with
       | '\x7d' :: rest2 => some (.obj [], rest2)
       | _ =>
         match parseObjItems (rest.length + 1) (skipWs rest) with
         | some (kvs, rest2) => some (.obj kvs, rest2)
         | none => none)
  | cs2 =>
      (match parseScalar cs2 with
       | some (v, rest) => some (.scalar v, rest)
       | none => none)

/-- Modelled from the spec: the JSON collaborator's
parse-text-to-value (`json.load` on the file's full contents); `none`
models the parse error `json.load` raises on malformed input. -/
def jsonLoads (s : String) : Option JVal :=
  match parseVal s.toList with
  | some (v, rest) => if skipWs rest = [] then some v else none
  | none => none

/-! ## The filesystem collaborator (`uos` and `open`)

Modelled from the spec: the host environment supplies directory listing,
change-directory, make-directory, remove-directory, remove-file,
rename-file, line-oriented file open/read/write/append primitives and a
current-working-directory query.  POSIX path semantics: the empty path
does not resolve (chdir/listdir on `''` raise), other relative paths are
resolved against the current working directory.  A raised `OSError` is
the `.error` value of `Except`. -/

/-- `uos.getcwd()`. -/
def uos_getcwd (s : St) : String :=
  s.cwd

/-- `uos.chdir(p)`: succeeds exactly when `p` resolves to an existing
directory; the error payload is the exception's `errno` (2, `ENOENT`). -/
def uos_chdir (s : St) (p : String) : Except Int St :=
  if p = "" then .error 2
  else if resolve s.cwd p ∈ s.dirs then .ok { s with cwd := resolve s.cwd p }
  else .error 2

/-- `uos.mkdir(p)`: fails when the resolved directory already exists (or
the path is empty); otherwise records it. -/
def uos_mkdir (s : St) (p : String) : Except Unit St :=
  if p = "" then .error ()
  else if resolve s.cwd p ∈ s.dirs then .error ()
  else .ok { s with dirs := resolve s.cwd p :: s.dirs }

/-- `uos.rmdir(p)`: removes the resolved directory if it exists. -/
def uos_rmdir (s : St) (p : String) : Except Unit St :=
  if p = "" then .error ()
  else if resolve s.cwd p ∈ s.dirs then
    .ok { s with dirs := s.dirs.filter (fun d => d ≠ resolve s.cwd p) }
  else .error ()

/-- `uos.listdir(p)`: the names of the files and subdirectories whose
parent is the resolved directory; raises when it does not exist. -/
def uos_listdir (s : St) (p : String) : Except Unit (List String) :=
  if p = "" then .error ()
  else if resolve s.cwd p ∈ s.dirs then
    .ok ((s.files.filter (fun kv => parentDir kv.1 = resolve s.cwd p)).map
           (fun kv => nameOf kv.1) ++
         (s.dirs.filter (fun d => parentDir d = resolve s.cwd p ∧ d ≠ "/")).map nameOf)
  else .error ()

/-- `uos.remove(p)`: deletes the resolved file if present. -/
def uos_remove (s : St) (p : String) : Except Unit St :=
  if (s.files.lookup (resolve s.cwd p)).isSome then
    .ok { s with files := s.files.filter (fun kv => kv.1 ≠ resolve s.cwd p) }
  else .error ()

/-- `uos.rename(old, new)`: moves the contents of the resolved source to
the resolved target. -/
def uos_rename (s : St) (old new : String) : Except Unit St :=
  match s.files.lookup (resolve s.cwd old) with
  | some content =>
      .ok { s with files :=
              (resolve s.cwd new, content) ::
                (s.files.filter (fun kv => kv.1 ≠ resolve s.cwd old)) }
  | none => .error ()

/-- The contents of the file at absolute path `r`, if present. -/
def getFile (s : St) (r : String) : Option String :=
  s.files.lookup r

/-- Store contents `c` at absolute path `r`, replacing any previous
binding. -/
def setFile (s : St) (r c : String) : St :=
  { s with files := (r, c) :: s.files.filter (fun kv => kv.1 ≠ r) }

/-- `open(p, method)` for `'w'` (truncate/create) or `'a'` (append,
creating an empty file when missing): fails when the resolved path's
parent directory does not exist. -/
def pyOpen (s : St) (p : String) (method : String) : Except Unit St :=
  if p = "" then .error ()
  else
    let r := resolve s.cwd p
    if parentDir r ∈ s.dirs then
      if method = "a" then
        .ok (setFile s r ((getFile s r).getD ""))
      else
        .ok (setFile s r "")
    else .error ()

/-- `f.write(c)` on a file handle obtained from `pyOpen`: appends to the
(possibly just truncated) contents. -/
def fileWriteMore (s : St) (p c : String) : St :=
  setFile s (resolve s.cwd p) (((getFile s (resolve s.cwd p)).getD "") ++ c)

/-- `open(p, 'r')` followed by reading the whole contents; raises when
the file does not exist. -/
def openRead (s : St) (p : String) : Except Unit String :=
  match getFile s (resolve s.cwd p) with
  | some c => .ok c
  | none => .error ()

/-! ## Dynamic writer payloads

The `data` parameters of the source are dynamically typed
(`str or list or dict`); `Cell`, `PElem` and `PData` reify the shapes the
code distinguishes with `isinstance`. -/

/-- A scalar element of a CSV row. -/
inductive Cell where
  | str (s : String)
  | int (n : Int)
  | bool (b : Bool)
deriving DecidableEq

/-- Python's `str()` on a cell. -/
def cellToStr : Cell → String
  | .str s => s
  | .int n => toString n
  | .bool b => if b then "True" else "False"

/-- An element of a `list`-shaped payload: a plain string or a row given
as a list of cells. -/
inductive PElem where
  | str (s : String)
  | lst (cs : List Cell)
deriving DecidableEq

/-- A dynamically typed `data` argument: `None`, a string, a list, or a
dict (JSON document). -/
inductive PData where
  | pynone
  | str (s : String)
  | lst (xs : List PElem)
  | dict (j : JVal)
deriving DecidableEq

/-- Python truthiness of a scalar. -/
def JScalar.falsy : JScalar → Bool
  | .str s => s = ""
  | .int n => n = 0
  | .bool b => !b
  | .null => true

/-- Python truthiness of a JSON document. -/
def JVal.falsy : JVal → Bool
  | .scalar v => v.falsy
  | .arr xs => xs.isEmpty
  | .obj kvs => kvs.isEmpty

/-- Python's `not data`. -/
def PData.isFalsy : PData → Bool
  | .pynone => true
  | .str s => s = ""
  | .lst xs => xs.isEmpty
  | .dict j => j.falsy

/-- JSON text of a cell (`json.dumps` of the row element). -/
def cellJson : Cell → String
  | .str s => "\x22" ++ s ++ "\x22"
  | .int n => toString n
  | .bool b => if b then "true" else "false"

/-- JSON text of a list element. -/
def pElemDumps : PElem → String
  | .str s => "\x22" ++ s ++ "\x22"
  | .lst cs => "[" ++ String.intercalate ", " (cs.map cellJson) ++ "]"

/-- `json.dumps(data)` for a dynamically typed payload. -/
def pDataDumps : PData → String
  | .pynone => "null"
  | .str s => "\x22" ++ s ++ "\x22"
  | .lst xs => "[" ++ String.intercalate ", " (xs.map pElemDumps) ++ "]"
  | .dict j => jsonDumps j

/-- The textual form of a raised `OSError` instance interpolated by an
f-string (no `'OSError'` substring: `str(e)` renders the errno text). -/
def excStr : String := "[Errno 2] ENOENT"

/-- The textual form of a raised `TypeError` instance. -/
def typeErrStr : String := "unsupported type"

/-- The f-string `f'Error: \x7bOSError\x7d'` interpolating the exception
class (this one does contain the substring `OSError`). -/
def oserrMsg : String := "Error: <class \x27OSError\x27>"

/-! ## The `SdCardUtils` methods -/

/-- `_clean_error`. -/
def _clean_error (s : St) : St :=
  { s with error := "" }

/-- `get_error`: clears the field first when it contains `'OSError'`,
then returns the (possibly just cleared) field. -/
def get_error (s : St) : String × St :=
  let s := if strContains s.error "OSError" then { s with error := "" } else s
  (s.error, s)

/-- `dir_exists`. -/
def dir_exists (s : St) (path : String) : Bool × St :=
  let s := _clean_error s
  match uos_chdir s path with
  | .ok s1 => (true, s1)
  | .error _ => (false, { s with error := oserrMsg })

/-- `file_exists`; the `uos.listdir` call is not wrapped in a `try`, so
its failure propagates (`.error`). -/
def file_exists (s : St) (file_name path : String) : Except Unit (Bool × St) :=
  let s := _clean_error s
  let p := dir_exists s path
  if p.1 = false then .ok (false, p.2)
  else
    match uos_listdir p.2 path with
    | .error _ => .error ()
    | .ok entries =>
      if file_name ∈ entries then .ok (true, p.2)
      else .ok (false, { p.2 with error := "File not exists" })

/-- `exists`: split at the last `/`, check the directory, then the file
membership. -/
def «exists» (s : St) (file_path : String) : Except Unit (Bool × St) :=
  let s := _clean_error s
  match splitAtLastSlash file_path with
  | none => .ok (false, { s with error := "file_path is not a path" })
  | some q =>
    let p := dir_exists s q.1
    if p.1 = false then .ok (false, p.2)
    else file_exists p.2 q.2 q.1

/-- `mkdir`. -/
def mkdir (s : St) (dir_name : String) : Bool × St :=
  let s := _clean_error s
  if dir_name = "" then (false, { s with error := "dir_name is empty" })
  else
    let p := dir_exists s dir_name
    if p.1 then (false, { p.2 with error := dir_name ++ " already exists" })
    else
      match uos_mkdir p.2 dir_name with
      | .ok s1 => (true, s1)
      | .error _ =>
          (false, { p.2 with error := "can\x27t create directory " ++ dir_name ++ " -> " ++ excStr })

/-- `cd`: probe (and optionally create), re-probe, then `uos.chdir`;
an `OSError` with errno `-2` from the final `chdir` is tolerated as
success, any other failure falls through to the closing error return. -/
def cd (s0 : St) (dir_name : String) (create : Bool) : Bool × St :=
  let s := _clean_error s0
  let s :=
    if dir_name ≠ "" then
      let p := dir_exists s dir_name
      if p.1 = false ∧ create then (mkdir p.2 dir_name).2 else p.2
    else s
  let step : Option (Bool × St) × St :=
    if dir_name ≠ "" then
      let p := dir_exists s dir_name
      if p.1 then
        match uos_chdir p.2 dir_name with
        | .ok s3 => (some (true, s3), s3)
        | .error e => if e = -2 then (some (true, p.2), p.2) else (none, p.2)
      else (none, p.2)
    else (none, s)
  match step.1 with
  | some r => r
  | none =>
      (false,
       { step.2 with error :=
           "Something has gone wrong, can\x27t change to directory " ++ dir_name })

/-- `rmdir`: note that unlike every other operation it does not call
`_clean_error` first. -/
def rmdir (s : St) (dir_name : String) : Bool × St :=
  match uos_rmdir s dir_name with
  | .ok s1 => (true, s1)
  | .error _ =>
      (false, { s with error := "can\x27t delete directory " ++ dir_name ++ " -> " ++ excStr })

/-- The static `dir` listing: no error handling, `uos.listdir` failures
propagate. -/
def dir (s : St) (dir_name : String) : Except Unit (List String) :=
  uos_listdir s dir_name

/-- `is_file`: `try: open; close; return True` followed by
`finally: return False` — in Python the `finally` block's `return`
overrides both the `try` block's `return True` and any exception. -/
def is_file (s : St) (file_name : String) : Bool :=
  match openRead s file_name with
  | .ok _ => false
  | .error _ => false

/-- `is_dir`: probe with `cd`, restore on success. -/
def is_dir (s : St) (dir_name : String) : Bool × St :=
  let actual := uos_getcwd s
  let p := cd s dir_name false
  if p.1 then (true, (cd p.2 actual false).2)
  else (false, p.2)

/-- `_str_join`: join the row's cells with the separator, converting
non-string cells with `str()`. -/
def _str_join (data : List Cell) (separator : String) : String :=
  String.intercalate separator
    (data.map (fun x => match x with | .str s => s | c => cellToStr c))

/-- `_write_data`: open with the given mode (both the falsy and the
non-falsy branch open the file first, so `'w'` truncates either way);
`writelines` requires every element to be a string, `write` requires a
string; either failure is caught here and recorded. -/
def _write_data (s : St) (data : PData) (file_name dir_name method : String) : Bool × St :=
  let path := dir_name ++ file_name
  match pyOpen s path method with
  | .error _ => (false, { s with error := file_name ++ " File write error -> " ++ excStr })
  | .ok s1 =>
    if data.isFalsy then (true, s1)
    else
      match data with
      | .str c => (true, fileWriteMore s1 path c)
      | .lst xs =>
        if xs.all (fun x => match x with | .str _ => true | _ => false) then
          (true, fileWriteMore s1 path
            (String.join (xs.map (fun x => match x with | .str c => c | _ => ""))))
        else (false, { s1 with error := file_name ++ " File write error -> " ++ typeErrStr })
      | _ => (false, { s1 with error := file_name ++ " File write error -> " ++ typeErrStr })

/-- `_write_csv`: each row that is a list is joined with the separator,
every row is written followed by `newline`.  Iterating a string payload
yields its characters; a non-iterable payload raises a `TypeError` that
is caught here. -/
def _write_csv (s : St) (data : PData) (file_name dir_name method separator newline : String) :
    Bool × St :=
  let path := dir_name ++ file_name
  match pyOpen s path method with
  | .error _ => (false, { s with error := file_name ++ " CSV File write error -> " ++ excStr })
  | .ok s1 =>
    match data with
    | .lst xs =>
        (true, fileWriteMore s1 path
          (String.join (xs.map (fun item =>
             (match item with
              | .lst cs => _str_join cs separator
              | .str line => line) ++ newline))))
    | .str c =>
        (true, fileWriteMore s1 path
          (String.join (c.toList.map (fun ch => String.mk [ch] ++ newline))))
    | _ => (false, { s1 with error := file_name ++ " CSV File write error -> " ++ typeErrStr })

/-- `_write_json`: write `json.dumps(data)` as one blob. -/
def _write_json (s : St) (data : PData) (file_name dir_name method : String) : Bool × St :=
  let path := dir_name ++ file_name
  match pyOpen s path method with
  | .error _ => (false, { s with error := file_name ++ " File write (json) error -> " ++ excStr })
  | .ok s1 => (true, fileWriteMore s1 path (pDataDumps data))

/-- The value a read operation hands back on success. -/
inductive ReadData where
  | lines (xs : List String)
  | table (xs : List (List String))
  | jval (j : JVal)
deriving DecidableEq

/-- `_read_file`: `readlines`, no trimming. -/
def _read_file (s : St) (file_name : String) : Except Unit ReadData :=
  match openRead s file_name with
  | .ok content => .ok (.lines (readLines content))
  | .error _ => .error ()

/-- `_read_csv`: `readlines`, remove the `newline` token from each line,
and split each line on the separator in row-list mode. -/
def _read_csv (s : St) (file_name separator newline : String) (row_list : Bool) :
    Except Unit ReadData :=
  match openRead s file_name with
  | .error _ => .error ()
  | .ok content =>
    let data := (readLines content).map (fun item => strRemoveAll newline item)
    if row_list then .ok (.table (data.map (fun item => pySplit item separator)))
    else .ok (.lines data)

/-- `_read_json`: parse the full contents (raising on malformed JSON). -/
def _read_json (s : St) (file_name : String) : Except Unit ReadData :=
  match openRead s file_name with
  | .error _ => .error ()
  | .ok content =>
    match jsonLoads content with
    | some j => .ok (.jval j)
    | none => .error ()

/-- `_read`: prefix the current directory when the name has no `/`,
require `exists`, dispatch on the format tag; a reader failure is caught
and recorded, returning `False` (`none`). -/
def _read (s : St) (file_name file_type separator newline : String) (row_list : Bool) :
    Except Unit (Option ReadData × St) :=
  let s := _clean_error s
  let fn := if containsSlash file_name = false then uos_getcwd s ++ file_name else file_name
  match «exists» s fn with
  | .error e => .error e
  | .ok (false, s1) => .ok (none, { s1 with error := fn ++ " not exists" })
  | .ok (true, s1) =>
    let r : Except Unit ReadData :=
      if file_type = "json" then _read_json s1 fn
      else if file_type = "csv" then _read_csv s1 fn separator newline row_list
      else _read_file s1 fn
    match r with
    | .ok d => .ok (some d, s1)
    | .error _ =>
        .ok (none, { s1 with error := "can\x27t read data from " ++ fn ++ "  -> " ++ excStr })

/-- `_create`: resolve the target directory (falling back to the current
directory), evaluate the guard `dir_name != '/' and dir_exists(dir_name)
and not force` with Python's short-circuiting, run the unguarded
`uos.mkdir` when `force` is set (its failure propagates — it is outside
the `try`), normalize the prefix, and dispatch to a writer whose boolean
result is discarded (`return True` follows unconditionally; the writers
catch their own exceptions, so the `except` branch of the source is
unreachable). -/
def _create (s : St) (file_name dir_name : String) (data : PData) (force : Bool)
    (file_type : String) : Except Unit (Bool × St) :=
  let s := _clean_error s
  if file_name = "" then .ok (false, { s with error := "file_name is empty" })
  else
    let dn := if dir_name ≠ "" ∧ dir_name ≠ "/" then dir_name else uos_getcwd s
    let g := if dn ≠ "/" then dir_exists s dn else (false, s)
    let s1 := g.2
    if dn ≠ "/" ∧ g.1 ∧ force = false then
      .ok (false,
        { s1 with error := "\x22" ++ dn ++ "\x22 not exists, use forde=True to force creation" })
    else
      match (if force then uos_mkdir s1 dn else .ok s1) with
      | .error _ => .error ()
      | .ok s2 =>
        let dn := if endsWithSlash dn then dn else dn ++ "/"
        let dn := if dn ≠ "/" then dn else ""
        let w :=
          if file_type = "json" then _write_json s2 data file_name dn "w"
          else if file_type = "csv" then _write_csv s2 data file_name dn "w" ";" "\n"
          else _write_data s2 data file_name dn "w"
        .ok (true, w.2)

/-- `_update`: prefix the current directory when the name has no `/`,
require `exists`, then append-dispatch; the writer's boolean result is
discarded exactly as in `_create`. -/
def _update (s : St) (file_name : String) (data : PData) (file_type : String) :
    Except Unit (Bool × St) :=
  let s := _clean_error s
  let fn := if containsSlash file_name = false then uos_getcwd s ++ file_name else file_name
  match «exists» s fn with
  | .error e => .error e
  | .ok (true, s1) =>
    let w :=
      if file_type = "json" then _write_json s1 data fn "" "a"
      else if file_type = "csv" then _write_csv s1 data fn "" "a" ";" "\n"
      else _write_data s1 data fn "" "a"
    .ok (true, w.2)
  | .ok (false, s1) =>
    .ok (false, { s1 with error := fn ++ " not exists or add path to filename ex; /file.txt" })

/-- `delete_file`. -/
def delete_file (s : St) (file_name : String) : Except Unit (Bool × St) :=
  let s := _clean_error s
  let fn := if containsSlash file_name = false then uos_getcwd s ++ file_name else file_name
  match «exists» s fn with
  | .error e => .error e
  | .ok (true, s1) =>
    match uos_remove s1 fn with
    | .ok s2 => .ok (true, s2)
    | .error _ => .ok (false, { s1 with error := fn ++ " can\x27t delete -> " ++ excStr })
  | .ok (false, s1) =>
    .ok (false,
      { s1 with error := "File " ++ fn ++ " not exitsts or add path to filename ex; /file.txt" })

/-- `rename_file`. -/
def rename_file (s : St) (file_name new_name : String) : Except Unit (Bool × St) :=
  let s := _clean_error s
  let fn := if containsSlash file_name = false then uos_getcwd s ++ file_name else file_name
  match «exists» s fn with
  | .error e => .error e
  | .ok (false, s1) =>
    .ok (false, { s1 with error := fn ++ " not exists or add path to filename ex; /file.txt" })
  | .ok (true, s1) =>
    match uos_rename s1 fn new_name with
    | .ok s2 => .ok (true, s2)
    | .error _ =>
        .ok (false,
          { s1 with error := "can\x27t rename " ++ fn ++ " to " ++ new_name ++ " -> " ++ excStr })

/-- `create_file`. -/
def create_file (s : St) (file_name dir_name : String) (data : PData) (force : Bool) :
    Except Unit (Bool × St) :=
  _create s file_name dir_name data force ""

/-- `create_csv`. -/
def create_csv (s : St) (file_name dir_name : String) (data : PData) (force : Bool) :
    Except Unit (Bool × St) :=
  _create s file_name dir_name data force "csv"

/-- `create_json`. -/
def create_json (s : St) (file_name dir_name : String) (data : PData) (force : Bool) :
    Except Unit (Bool × St) :=
  _create s file_name dir_name data force "json"

/-- `update_file`. -/
def update_file (s : St) (file_name : String) (data : PData) : Except Unit (Bool × St) :=
  _update s file_name data ""

/-- `update_csv`. -/
def update_csv (s : St) (file_name : String) (data : PData) : Except Unit (Bool × St) :=
  _update s file_name data "csv"

/-- `update_json`. -/
def update_json (s : St) (file_name : String) (data : PData) : Except Unit (Bool × St) :=
  _update s file_name data "json"

/-- `read_file`. -/
def read_file (s : St) (file_name : String) : Except Unit (Option ReadData × St) :=
  _read s file_name "" ";" "\n" false

/-- `read_csv`. -/
def read_csv (s : St) (file_name separator newline : String) (row_list : Bool) :
    Except Unit (Option ReadData × St) :=
  _read s file_name "csv" separator newline row_list

/-- `read_json`. -/
def read_json (s : St) (file_name : String) : Except Unit (Option ReadData × St) :=
  _read s file_name "json" ";" "\n" false

/-! ## Helper lemmas about strings and paths -/

theorem string_toList_append (a b : String) : (a ++ b).toList = a.toList ++ b.toList :=
  String.data_append a b

theorem string_toList_eq_nil {s : String} (h : s.toList = []) : s = "" := by
  cases s with
  | mk l => cases h; rfl

theorem string_toList_ne_nil {s : String} (h : s ≠ "") : s.toList ≠ [] :=
  fun he => h (string_toList_eq_nil he)

theorem append_ne_empty_left {a : String} (b : String) (h : a ≠ "") : a ++ b ≠ "" := by
  intro he
  have h2 : (a ++ b).toList = [] := by rw [he]; rfl
  rw [string_toList_append] at h2
  exact string_toList_ne_nil h (List.append_eq_nil.mp h2).1

theorem append_ne_empty_right (a : String) {b : String} (h : b ≠ "") : a ++ b ≠ "" := by
  intro he
  have h2 : (a ++ b).toList = [] := by rw [he]; rfl
  rw [string_toList_append] at h2
  exact string_toList_ne_nil h (List.append_eq_nil.mp h2).2

theorem isAbs_iff {s : String} : isAbs s = true ↔ ∃ t, s.toList = '/' :: t := by
  unfold isAbs
  rcases h : s.toList with _ | ⟨c, t⟩
  · simp
  · simp only [decide_eq_true_eq]
    constructor
    · intro hc; exact ⟨t, by rw [hc]⟩
    · rintro ⟨t2, ht2⟩; exact (List.cons.injEq _ _ _ _ ▸ ht2).1

theorem isAbs_ne_empty {p : String} (h : isAbs p = true) : p ≠ "" := by
  obtain ⟨t, ht⟩ := isAbs_iff.mp h
  intro he
  rw [he] at ht
  exact absurd ht (by simp [String.toList])

theorem isAbs_append {a : String} (b : String) (h : isAbs a = true) : isAbs (a ++ b) = true := by
  obtain ⟨t, ht⟩ := isAbs_iff.mp h
  exact isAbs_iff.mpr ⟨t ++ b.toList, by rw [string_toList_append, ht]; rfl⟩

theorem resolve_abs (cwd : String) {p : String} (h : isAbs p = true) : resolve cwd p = p := by
  simp [resolve, h]

theorem dropWhile_head_false (p : Char → Bool) (l : List Char) {c : Char} {t : List Char}
    (h : l.dropWhile p = c :: t) : p c = false := by
  induction l with
  | nil => simp at h
  | cons a l ih =>
      rw [List.dropWhile_cons] at h
      by_cases hp : p a
      · simp [hp] at h; exact ih h
      · simp [hp] at h; rw [← h.1]; simpa using hp

theorem splitAtLastSlash_decomp {s q1 q2 : String}
    (h : splitAtLastSlash s = some (q1, q2)) :
    s.toList = q1.toList ++ '/' :: q2.toList := by
  simp only [splitAtLastSlash] at h
  rcases hd : s.toList.reverse.dropWhile (fun c => c ≠ '/') with _ | ⟨c, restRev⟩
  · rw [hd] at h; simp at h
  · rw [hd] at h
    simp only [Option.some.injEq, Prod.mk.injEq] at h
    obtain ⟨h1, h2⟩ := h
    have hc : (fun c => decide (c ≠ '/')) c = false := dropWhile_head_false _ _ hd
    have hc2 : c = '/' := by simpa using hc
    have hsp := List.takeWhile_append_dropWhile (fun c => decide (c ≠ '/')) s.toList.reverse
    rw [hd] at hsp
    have hrev : s.toList = (s.toList.reverse).reverse := (List.reverse_reverse _).symm
    rw [hrev, ← hsp]
    rw [← h1, ← h2]
    simp [hc2]

theorem splitAtLastSlash_abs {s q1 q2 : String} (habs : isAbs s = true)
    (h : splitAtLastSlash s = some (q1, q2)) (hne : q1 ≠ "") : isAbs q1 = true := by
  have hd := splitAtLastSlash_decomp h
  obtain ⟨t, ht⟩ := isAbs_iff.mp habs
  rcases hq : q1.toList with _ | ⟨c, t1⟩
  · exact absurd (string_toList_eq_nil hq) hne
  · rw [ht, hq] at hd
    simp only [List.cons_append, List.cons.injEq] at hd
    exact isAbs_iff.mpr ⟨t1, by rw [hq, hd.1]⟩

theorem lookup_mem {l : List (String × String)} {k v : String}
    (h : l.lookup k = some v) : (k, v) ∈ l := by
  induction l with
  | nil => simp [List.lookup] at h
  | cons a l ih =>
      rw [List.lookup] at h
      by_cases hk : (k == a.1) = true
      · rw [hk] at h
        simp only [Option.some.injEq] at h
        have hkk : k = a.1 := by simpa using hk
        have : a = (k, v) := by cases a; simp_all
        rw [this]
        exact List.mem_cons_self _ _
      · have hk2 : (k == a.1) = false := by simpa using hk
        rw [hk2] at h
        exact List.mem_cons_of_mem _ (ih h)

/-! ## Characterization lemmas for the methods -/

theorem clean_clean (s : St) : _clean_error (_clean_error s) = _clean_error s := rfl

theorem dir_exists_eq (s : St) (p : String) :
    dir_exists s p =
      if p ≠ "" ∧ resolve s.cwd p ∈ s.dirs then
        (true, { s with cwd := resolve s.cwd p, error := "" })
      else (false, { s with error := oserrMsg }) := by
  unfold dir_exists _clean_error uos_chdir
  by_cases h1 : p = ""
  · subst h1; simp
  · by_cases h2 : resolve s.cwd p ∈ s.dirs
    · simp [h1, h2]
    · simp [h1, h2]

theorem dir_exists_clean (s : St) (p : String) :
    dir_exists (_clean_error s) p = dir_exists s p := rfl

theorem dir_exists_fst_iff {s : St} {p : String} :
    (dir_exists s p).1 = true ↔ p ≠ "" ∧ resolve s.cwd p ∈ s.dirs := by
  rw [dir_exists_eq]
  by_cases h : p ≠ "" ∧ resolve s.cwd p ∈ s.dirs <;> simp [h]

theorem dir_exists_true_state {s : St} {p : String} (h : (dir_exists s p).1 = true) :
    (dir_exists s p).2 = { s with cwd := resolve s.cwd p, error := "" } := by
  rw [dir_exists_eq] at h ⊢
  by_cases hc : p ≠ "" ∧ resolve s.cwd p ∈ s.dirs
  · simp [hc]
  · rw [if_neg hc] at h; simp at h

theorem dir_exists_false_state {s : St} {p : String} (h : (dir_exists s p).1 = false) :
    (dir_exists s p).2 = { s with error := oserrMsg } := by
  rw [dir_exists_eq] at h ⊢
  by_cases hc : p ≠ "" ∧ resolve s.cwd p ∈ s.dirs
  · rw [if_pos hc] at h; simp at h
  · simp [hc]

theorem nameOf_split {fn q f : String} (h : splitAtLastSlash fn = some (q, f)) :
    nameOf fn = f := by
  unfold nameOf; rw [h]

theorem parentDir_split {fn q f : String} (h : splitAtLastSlash fn = some (q, f))
    (hq : q ≠ "") : parentDir fn = q := by
  unfold parentDir; rw [h]; simp [hq]

theorem dir_exists_abs_found (s : St) {q : String} (hqabs : isAbs q = true)
    (hq : q ∈ s.dirs) :
    dir_exists s q = (true, ⟨s.dirs, s.files, q, ""⟩) := by
  rw [dir_exists_eq,
      if_pos ⟨isAbs_ne_empty hqabs, by rw [resolve_abs _ hqabs]; exact hq⟩,
      resolve_abs _ hqabs]

theorem exists_found (s : St) (fn q f old : String)
    (hsplit : splitAtLastSlash fn = some (q, f))
    (hqabs : isAbs q = true)
    (hq : q ∈ s.dirs)
    (hlook : s.files.lookup fn = some old) :
    «exists» s fn = .ok (true, ⟨s.dirs, s.files, q, ""⟩) := by
  have hqne : q ≠ "" := isAbs_ne_empty hqabs
  have hmem : (fn, old) ∈ s.files := lookup_mem hlook
  have hf : f ∈ (s.files.filter (fun kv => parentDir kv.1 = q)).map (fun kv => nameOf kv.1) := by
    rw [List.mem_map]
    exact ⟨(fn, old), List.mem_filter.mpr ⟨hmem, by simp [parentDir_split hsplit hqne]⟩,
           nameOf_split hsplit⟩
  have hde : dir_exists s q = (true, ⟨s.dirs, s.files, q, ""⟩) := dir_exists_abs_found s hqabs hq
  have hde2 : dir_exists (⟨s.dirs, s.files, q, ""⟩ : St) q = (true, ⟨s.dirs, s.files, q, ""⟩) :=
    dir_exists_abs_found _ hqabs hq
  have hlist : uos_listdir (⟨s.dirs, s.files, q, ""⟩ : St) q =
      .ok ((s.files.filter (fun kv => parentDir kv.1 = q)).map (fun kv => nameOf kv.1) ++
           (s.dirs.filter (fun d => parentDir d = q ∧ d ≠ "/")).map nameOf) := by
    unfold uos_listdir
    rw [if_neg (by simpa using hqne)]
    rw [if_pos (show resolve (⟨s.dirs, s.files, q, ""⟩ : St).cwd q ∈
          (⟨s.dirs, s.files, q, ""⟩ : St).dirs by simpa [resolve_abs _ hqabs] using hq)]
    rw [show resolve (⟨s.dirs, s.files, q, ""⟩ : St).cwd q = q from resolve_abs _ hqabs]
  unfold «exists» file_exists
  simp only [hsplit, dir_exists_clean, hde, hde2, hlist]
  simp [hf]

theorem exists_clean (s : St) (fp : String) :
    «exists» (_clean_error s) fp = «exists» s fp := rfl

theorem filter_ne_idem (l : List (String × String)) (k : String) :
    (l.filter (fun kv => kv.1 ≠ k)).filter (fun kv => kv.1 ≠ k) =
      l.filter (fun kv => kv.1 ≠ k) := by
  induction l with
  | nil => rfl
  | cons a l ih =>
      by_cases hk : a.1 = k
      · simp [hk, ih]
      · simp [hk, ih]

theorem pyOpen_append (s : St) {p q : String} (habs : isAbs p = true)
    (hpar : parentDir p = q) (hq : q ∈ s.dirs) :
    pyOpen s p "a" = .ok (setFile s p ((getFile s p).getD "")) := by
  have hres : ∀ cw, resolve cw p = p := fun cw => resolve_abs cw habs
  simp only [pyOpen, hres]
  rw [if_neg (by simpa using isAbs_ne_empty habs)]
  rw [if_pos (show parentDir p ∈ s.dirs by rw [hpar]; exact hq)]
  simp

theorem update_once (s : St) (q f old c : String)
    (hsplit : splitAtLastSlash (q ++ "/" ++ f) = some (q, f))
    (hslash : containsSlash (q ++ "/" ++ f) = true)
    (habs : isAbs (q ++ "/" ++ f) = true)
    (hqabs : isAbs q = true)
    (hq : q ∈ s.dirs)
    (hc : c ≠ "")
    (hlook : s.files.lookup (q ++ "/" ++ f) = some old) :
    update_file s (q ++ "/" ++ f) (.str c) =
      .ok (true, ⟨s.dirs,
        (q ++ "/" ++ f, old ++ c) :: s.files.filter (fun kv => kv.1 ≠ q ++ "/" ++ f),
        q, ""⟩) := by
  have hqne : q ≠ "" := isAbs_ne_empty hqabs
  have hres : ∀ cw, resolve cw (q ++ "/" ++ f) = q ++ "/" ++ f :=
    fun cw => resolve_abs cw habs
  have hex : «exists» (_clean_error s) (q ++ "/" ++ f) = .ok (true, ⟨s.dirs, s.files, q, ""⟩) :=
    exists_found s _ q f old hsplit hqabs hq hlook
  have hopen : pyOpen (⟨s.dirs, s.files, q, ""⟩ : St) (q ++ "/" ++ f) "a" =
      .ok (setFile (⟨s.dirs, s.files, q, ""⟩ : St) (q ++ "/" ++ f)
            ((getFile (⟨s.dirs, s.files, q, ""⟩ : St) (q ++ "/" ++ f)).getD "")) :=
    pyOpen_append _ habs (parentDir_split hsplit hqne) hq
  have hget : getFile (⟨s.dirs, s.files, q, ""⟩ : St) (q ++ "/" ++ f) = some old := hlook
  have hempty : ∀ x : String, "" ++ x = x := fun _ => rfl
  simp only [update_file, _update, hslash, Bool.true_eq_false, if_false, hex,
             show ("" = "json") = False from by simp, show ("" = "csv") = False from by simp,
             _write_data, hempty, hopen, hget, Option.getD_some,
             PData.isFalsy, eq_false hc, decide_False, Bool.false_eq_true]
  unfold fileWriteMore setFile getFile
  simp only [hres]
  simp [List.lookup, filter_ne_idem]

/-! ## Exception-propagation lemmas -/

theorem except_ok_of_ne_error {α : Type} {x : Except Unit α} (h : x ≠ .error ()) :
    ∃ r, x = .ok r := by
  cases x with
  | error e => cases e; exact absurd rfl h
  | ok r => exact ⟨r, rfl⟩

theorem bool_not_false {b : Bool} (h : ¬ b = false) : b = true := by
  cases b
  · exact absurd rfl h
  · rfl

theorem file_exists_abs_ok (s : St) (f p : String) (h : isAbs p = true) :
    ∃ r, file_exists s f p = .ok r := by
  apply except_ok_of_ne_error
  intro he
  have hres : ∀ cw, resolve cw p = p := fun cw => resolve_abs cw h
  simp only [file_exists] at he
  by_cases hb : (dir_exists (_clean_error s) p).1 = false
  · rw [if_pos hb] at he; simp at he
  · rw [if_neg hb] at he
    have hb' := bool_not_false hb
    have hcond := dir_exists_fst_iff.mp hb'
    generalize hG : (dir_exists (_clean_error s) p).2 = st at he
    have hst : st = { _clean_error s with cwd := resolve (_clean_error s).cwd p, error := "" } := by
      rw [← hG, dir_exists_true_state hb']
    have hstc : st.cwd = p := by rw [hst]; simp [hres]
    have hstd : st.dirs = s.dirs := by rw [hst]; rfl
    have hp2 : p ∈ s.dirs := by
      have h2 := hcond.2
      rw [hres] at h2
      exact h2
    obtain ⟨es, hes⟩ : ∃ es, uos_listdir st p = .ok es := by
      unfold uos_listdir
      rw [if_neg (by simpa using hcond.1)]
      rw [if_pos (show resolve st.cwd p ∈ st.dirs by rw [hres, hstd]; exact hp2)]
      exact ⟨_, rfl⟩
    simp only [hes] at he
    split at he <;> simp at he

theorem exists_abs_ok (s : St) (fp : String) (h : isAbs fp = true) :
    ∃ r, «exists» s fp = .ok r := by
  apply except_ok_of_ne_error
  intro he
  simp only [«exists»] at he
  rcases hsp : splitAtLastSlash fp with _ | ⟨q, f⟩
  · simp only [hsp] at he; simp at he
  · simp only [hsp] at he
    by_cases hb : (dir_exists (_clean_error s) q).1 = false
    · rw [if_pos hb] at he; simp at he
    · rw [if_neg hb] at he
      have hb' := bool_not_false hb
      have hq1 : q ≠ "" := (dir_exists_fst_iff.mp hb').1
      have hqabs : isAbs q = true := splitAtLastSlash_abs h hsp hq1
      obtain ⟨r, hr⟩ := file_exists_abs_ok (dir_exists (_clean_error s) q).2 f q hqabs
      rw [hr] at he
      simp at he

theorem prefixed_abs (s : St) (fn : String) (hcwd : isAbs s.cwd = true)
    (habs : containsSlash fn = true → isAbs fn = true) :
    isAbs (if containsSlash fn = false then uos_getcwd (_clean_error s) ++ fn else fn) = true := by
  by_cases hsl : containsSlash fn = false
  · rw [if_pos hsl]
    exact isAbs_append fn hcwd
  · rw [if_neg hsl]
    exact habs (bool_not_false hsl)

theorem delete_file_abs_ok (s : St) (fn : String) (hcwd : isAbs s.cwd = true)
    (habs : containsSlash fn = true → isAbs fn = true) :
    ∃ r, delete_file s fn = .ok r := by
  apply except_ok_of_ne_error
  intro he
  simp only [delete_file] at he
  obtain ⟨r, hr⟩ := exists_abs_ok (_clean_error s) _ (prefixed_abs s fn hcwd habs)
  rw [hr] at he
  rcases r with ⟨b, s1⟩
  cases b
  · simp at he
  · simp only [] at he
    split at he <;> simp at he

theorem rename_file_abs_ok (s : St) (fn nn : String) (hcwd : isAbs s.cwd = true)
    (habs : containsSlash fn = true → isAbs fn = true) :
    ∃ r, rename_file s fn nn = .ok r := by
  apply except_ok_of_ne_error
  intro he
  simp only [rename_file] at he
  obtain ⟨r, hr⟩ := exists_abs_ok (_clean_error s) _ (prefixed_abs s fn hcwd habs)
  rw [hr] at he
  rcases r with ⟨b, s1⟩
  cases b
  · simp at he
  · simp only [] at he
    split at he <;> simp at he

theorem update_abs_ok (s : St) (fn : String) (data : PData) (ft : String)
    (hcwd : isAbs s.cwd = true)
    (habs : containsSlash fn = true → isAbs fn = true) :
    ∃ r, _update s fn data ft = .ok r := by
  apply except_ok_of_ne_error
  intro he
  simp only [_update] at he
  obtain ⟨r, hr⟩ := exists_abs_ok (_clean_error s) _ (prefixed_abs s fn hcwd habs)
  rw [hr] at he
  rcases r with ⟨b, s1⟩
  cases b <;> simp at he

theorem read_abs_ok (s : St) (fn ft sep nl : String) (rl : Bool)
    (hcwd : isAbs s.cwd = true)
    (habs : containsSlash fn = true → isAbs fn = true) :
    ∃ r, _read s fn ft sep nl rl = .ok r := by
  apply except_ok_of_ne_error
  intro he
  simp only [_read] at he
  obtain ⟨r, hr⟩ := exists_abs_ok (_clean_error s) _ (prefixed_abs s fn hcwd habs)
  rw [hr] at he
  rcases r with ⟨b, s1⟩
  cases b
  · simp at he
  · simp only [] at he
    split at he <;> simp at he

theorem create_noforce_ok (s : St) (fn dn : String) (data : PData) (ft : String) :
    ∃ r, _create s fn dn data false ft = .ok r := by
  apply except_ok_of_ne_error
  intro he
  simp only [_create, Bool.false_eq_true, if_false] at he
  repeat' split at he
  all_goals simp_all

/-! ## Error-field lemmas -/

theorem mkdir_eq (s : St) (d : String) :
    mkdir s d =
      if d = "" then (false, { s with error := "dir_name is empty" })
      else if resolve s.cwd d ∈ s.dirs then
        (false, { s with cwd := resolve s.cwd d, error := d ++ " already exists" })
      else (true, { s with dirs := resolve s.cwd d :: s.dirs, error := oserrMsg }) := by
  by_cases h1 : d = ""
  · subst h1
    simp only [mkdir, if_pos rfl]
    simp [_clean_error]
  · rw [if_neg h1]
    simp only [mkdir, dir_exists_clean]
    rw [if_neg h1]
    rw [dir_exists_eq]
    by_cases h2 : resolve s.cwd d ∈ s.dirs
    · rw [if_pos h2]
      rw [if_pos (show d ≠ "" ∧ resolve s.cwd d ∈ s.dirs from ⟨h1, h2⟩)]
      simp [_clean_error]
    · rw [if_neg h2]
      rw [if_neg (show ¬(d ≠ "" ∧ resolve s.cwd d ∈ s.dirs) by simp [h2])]
      simp [uos_mkdir, _clean_error, h1, h2]

theorem rmdir_eq (s : St) (d : String) :
    rmdir s d =
      if d ≠ "" ∧ resolve s.cwd d ∈ s.dirs then
        (true, { s with dirs := s.dirs.filter (fun x => x ≠ resolve s.cwd d) })
      else
        (false, { s with error := "can\x27t delete directory " ++ d ++ " -> " ++ excStr }) := by
  unfold rmdir uos_rmdir
  by_cases h1 : d = ""
  · simp [h1]
  · by_cases h2 : resolve s.cwd d ∈ s.dirs
    · simp [h1, h2]
    · simp [h1, h2]

theorem uos_chdir_ok_state {s s1 : St} {p : String} (h : uos_chdir s p = .ok s1) :
    s1 = { s with cwd := resolve s.cwd p } := by
  unfold uos_chdir at h
  split at h
  · simp at h
  · split at h
    · simp only [Except.ok.injEq] at h
      exact h.symm
    · simp at h

theorem dir_exists_true_error {s : St} {p : String} (h : (dir_exists s p).1 = true) :
    (dir_exists s p).2.error = "" := by
  rw [dir_exists_true_state h]

theorem cd_spec (s : St) (d : String) (c : Bool) :
    ((cd s d c).1 = false →
      (cd s d c).2.error = "Something has gone wrong, can\x27t change to directory " ++ d) ∧
    ((cd s d c).1 = true → (cd s d c).2.error = "") := by
  by_cases hd : d = ""
  · subst hd
    simp only [cd]
    simp
  · simp only [cd]
    rw [if_pos hd, if_pos hd]
    generalize (if (dir_exists (_clean_error s) d).1 = false ∧ c = true then
        (mkdir (dir_exists (_clean_error s) d).2 d).2
      else (dir_exists (_clean_error s) d).2) = s2
    generalize hP : dir_exists s2 d = P
    rcases P with ⟨b, st⟩
    have hst : b = true → st.error = "" := by
      intro hb
      have h1 : (dir_exists s2 d).1 = true := by rw [hP, hb]
      have h2 := dir_exists_true_error h1
      rw [hP] at h2
      exact h2
    cases b
    · simp
    · rcases hC : uos_chdir st d with e | s3
      · by_cases he : e = -2
        · simp [hC, he, hst rfl]
        · simp [hC, he]
      · have hs3 : s3.error = st.error := by rw [uos_chdir_ok_state hC]
        simp [hC, hs3, hst rfl]

theorem file_exists_true_error {s : St} {f p : String} {s1 : St}
    (h : file_exists s f p = .ok (true, s1)) : s1.error = "" := by
  simp only [file_exists] at h
  by_cases hb : (dir_exists (_clean_error s) p).1 = false
  · rw [if_pos hb] at h; simp at h
  · rw [if_neg hb] at h
    have hb' := bool_not_false hb
    split at h
    · simp at h
    · split at h
      · simp only [Except.ok.injEq, Prod.mk.injEq, true_and] at h
        rw [← h]
        exact dir_exists_true_error hb'
      · simp at h

theorem exists_true_error {s : St} {fp : String} {s1 : St}
    (h : «exists» s fp = .ok (true, s1)) : s1.error = "" := by
  simp only [«exists»] at h
  split at h
  · simp at h
  · split at h
    · simp at h
    · exact file_exists_true_error h

theorem uos_remove_ok_error {s s2 : St} {p : String} (h : uos_remove s p = .ok s2) :
    s2.error = s.error := by
  unfold uos_remove at h
  split at h
  · injection h with h1
    rw [← h1]
  · simp at h

theorem uos_rename_ok_error {s s2 : St} {p q : String} (h : uos_rename s p q = .ok s2) :
    s2.error = s.error := by
  unfold uos_rename at h
  split at h
  · injection h with h1
    rw [← h1]
  · simp at h

theorem delete_file_error_cases (s : St) (f : String) (s1 : St) :
    (delete_file s f = .ok (false, s1) → s1.error ≠ "") ∧
    (delete_file s f = .ok (true, s1) → s1.error = "") := by
  constructor
  · intro h
    simp only [delete_file] at h
    split at h
    · simp at h
    · split at h
      · simp at h
      · injection h with h1
        injection h1 with ha hb
        rw [← hb]
        exact append_ne_empty_right _ (by decide)
    · injection h with h1
      injection h1 with ha hb
      rw [← hb]
      exact append_ne_empty_right _ (by decide)
  · intro h
    simp only [delete_file] at h
    split at h
    · simp at h
    · rename_i s1' heq
      split at h
      · rename_i s2 hrm
        injection h with h1
        injection h1 with ha hb
        rw [← hb]
        rw [uos_remove_ok_error hrm]
        exact exists_true_error heq
      · simp at h
    · simp at h

theorem rename_file_error_cases (s : St) (f g : String) (s1 : St) :
    (rename_file s f g = .ok (false, s1) → s1.error ≠ "") ∧
    (rename_file s f g = .ok (true, s1) → s1.error = "") := by
  constructor
  · intro h
    simp only [rename_file] at h
    split at h
    · simp at h
    · injection h with h1
      injection h1 with ha hb
      rw [← hb]
      exact append_ne_empty_right _ (by decide)
    · split at h
      · simp at h
      · injection h with h1
        injection h1 with ha hb
        rw [← hb]
        exact append_ne_empty_right _ (by decide)
  · intro h
    simp only [rename_file] at h
    split at h
    · simp at h
    · simp at h
    · rename_i s1' heq
      split at h
      · rename_i s2 hrm
        injection h with h1
        injection h1 with ha hb
        rw [← hb]
        rw [uos_rename_ok_error hrm]
        exact exists_true_error heq
      · simp at h

theorem update_false_error (s : St) (fn : String) (data : PData) (ft : String) (s1 : St)
    (h : _update s fn data ft = .ok (false, s1)) : s1.error ≠ "" := by
  simp only [_update] at h
  split at h
  · simp at h
  · simp at h
  · injection h with h1
    injection h1 with ha hb
    rw [← hb]
    exact append_ne_empty_right _ (by decide)

theorem read_none_error (s : St) (fn ft sep nl : String) (rl : Bool) (s1 : St)
    (h : _read s fn ft sep nl rl = .ok (none, s1)) : s1.error ≠ "" := by
  simp only [_read] at h
  split at h
  · simp at h
  · injection h with h1
    injection h1 with ha hb
    rw [← hb]
    exact append_ne_empty_right _ (by decide)
  · split at h
    · simp at h
    · injection h with h1
      injection h1 with ha hb
      rw [← hb]
      exact append_ne_empty_right _ (by decide)

theorem create_false_error (s : St) (fn dn : String) (data : PData) (force : Bool)
    (ft : String) (s1 : St)
    (h : _create s fn dn data force ft = .ok (false, s1)) : s1.error ≠ "" := by
  simp only [_create] at h
  repeat' split at h
  all_goals try simp at h
  all_goals
    first
      | (rw [← h]; exact append_ne_empty_right _ (by decide))
      | (rw [← h]; exact (by decide : ("file_name is empty" : String) ≠ ""))

theorem dir_ok_iff (s : St) (p : String) :
    (∃ l, dir s p = .ok l) ↔ (p ≠ "" ∧ resolve s.cwd p ∈ s.dirs) := by
  unfold dir uos_listdir
  constructor
  · rintro ⟨l, hl⟩
    by_cases h1 : p = ""
    · rw [if_pos h1] at hl; simp at hl
    · rw [if_neg h1] at hl
      by_cases h2 : resolve s.cwd p ∈ s.dirs
      · exact ⟨h1, h2⟩
      · rw [if_neg h2] at hl; simp at hl
  · rintro ⟨h1, h2⟩
    rw [if_neg h1, if_pos h2]
    exact ⟨_, rfl⟩

/-! ## Claim theorems -/

/-- A fresh helper state: root directory only, current directory `/`,
no recorded error (the state right after construction and mount). -/
def st0 : St := ⟨["/"], [], "/", ""⟩

/-- C1: the claim says a `_create` call (via `create_file` etc.) with a
non-empty file name on a missing directory with `force=False` returns
`False` with an error set.  On the code it does not: the writer catches
the open failure itself and `_create` ignores the writer's boolean, so
the call returns `True` while no file was created (only the error field
betrays the failure) — contradicting the method's own docstring
(`@return: True if file was created or False if not`).  The `force=True`
half of the claim does hold: the directory is created and the file
written. -/
theorem create_missing_dir_silent_true :
    create_file st0 "a.txt" "/d" (.str "Hi") false =
      .ok (true, ⟨["/"], [], "/", "a.txt File write error -> " ++ excStr⟩) ∧
    ("a.txt File write error -> " ++ excStr ≠ "") ∧
    getFile ⟨["/"], [], "/", "a.txt File write error -> " ++ excStr⟩ "/d/a.txt" = none ∧
    create_file st0 "a.txt" "/d" (.str "Hi") true =
      .ok (true, ⟨["/d", "/"], [("/d/a.txt", "Hi")], "/", oserrMsg⟩) :=
  ⟨rfl, by decide, rfl, rfl⟩

/-- C2 (counterexample): `rmdir` does not clear the error field at
entry — a successful `rmdir` leaves a stale error from an earlier
operation in place, while the claim requires the field to be reset to
`""` at the start of every public operation (so after this success it
would have to be empty). -/
theorem rmdir_keeps_stale_error :
    (rmdir ⟨["/", "/d"], [], "/", "stale"⟩ "/d").1 = true ∧
    (rmdir ⟨["/", "/d"], [], "/", "stale"⟩ "/d").2.error = "stale" :=
  ⟨rfl, rfl⟩

/-- C2 (amended): every listed public operation except `rmdir` clears
the error field at entry (its result does not depend on the previously
stored error); `rmdir` leaves the stored error untouched on success and
overwrites it on failure.  Every listed operation that reports failure
stores a non-empty message.  A successful `dir_exists`, `cd`,
`delete_file` or `rename_file` leaves the error empty, but a successful
`mkdir` leaves the spurious OSError message behind (the one `get_error`
later clears). -/
theorem error_field_discipline :
    (∀ (s : St) (d : String), (mkdir s d).1 = true → (mkdir s d).2.error = oserrMsg) ∧
    (∀ (s : St) (d : String),
      rmdir s d =
        if d ≠ "" ∧ resolve s.cwd d ∈ s.dirs then
          (true, { s with dirs := s.dirs.filter (fun x => x ≠ resolve s.cwd d) })
        else
          (false, { s with error := "can\x27t delete directory " ++ d ++ " -> " ++ excStr })) ∧
    (∀ (s : St) (e p : String),
      dir_exists { s with error := e } p = dir_exists { s with error := "" } p) ∧
    (∀ (s : St) (e d : String) (c : Bool),
      cd { s with error := e } d c = cd { s with error := "" } d c) ∧
    (∀ (s : St) (e d : String),
      mkdir { s with error := e } d = mkdir { s with error := "" } d) ∧
    (∀ (s : St) (e f : String),
      delete_file { s with error := e } f = delete_file { s with error := "" } f) ∧
    (∀ (s : St) (e f g : String),
      rename_file { s with error := e } f g = rename_file { s with error := "" } f g) ∧
    (∀ (s : St) (e fn dn : String) (data : PData) (force : Bool) (ft : String),
      _create { s with error := e } fn dn data force ft =
        _create { s with error := "" } fn dn data force ft) ∧
    (∀ (s : St) (e fn : String) (data : PData) (ft : String),
      _update { s with error := e } fn data ft = _update { s with error := "" } fn data ft) ∧
    (∀ (s : St) (e fn ft sep nl : String) (rl : Bool),
      _read { s with error := e } fn ft sep nl rl = _read { s with error := "" } fn ft sep nl rl) ∧
    (∀ (s : St) (p : String), (dir_exists s p).1 = false → (dir_exists s p).2.error ≠ "") ∧
    (∀ (s : St) (d : String) (c : Bool), (cd s d c).1 = false → (cd s d c).2.error ≠ "") ∧
    (∀ (s : St) (d : String), (mkdir s d).1 = false → (mkdir s d).2.error ≠ "") ∧
    (∀ (s : St) (d : String), (rmdir s d).1 = false → (rmdir s d).2.error ≠ "") ∧
    (∀ (s : St) (f : String) (s1 : St),
      delete_file s f = .ok (false, s1) → s1.error ≠ "") ∧
    (∀ (s : St) (f g : String) (s1 : St),
      rename_file s f g = .ok (false, s1) → s1.error ≠ "") ∧
    (∀ (s : St) (fn dn : String) (data : PData) (force : Bool) (ft : String) (s1 : St),
      _create s fn dn data force ft = .ok (false, s1) → s1.error ≠ "") ∧
    (∀ (s : St) (fn : String) (data : PData) (ft : String) (s1 : St),
      _update s fn data ft = .ok (false, s1) → s1.error ≠ "") ∧
    (∀ (s : St) (fn ft sep nl : String) (rl : Bool) (s1 : St),
      _read s fn ft sep nl rl = .ok (none, s1) → s1.error ≠ "") ∧
    (∀ (s : St) (p : String), (dir_exists s p).1 = true → (dir_exists s p).2.error = "") ∧
    (∀ (s : St) (d : String) (c : Bool), (cd s d c).1 = true → (cd s d c).2.error = "") ∧
    (∀ (s : St) (f : String) (s1 : St),
      delete_file s f = .ok (true, s1) → s1.error = "") ∧
    (∀ (s : St) (f g : String) (s1 : St),
      rename_file s f g = .ok (true, s1) → s1.error = "") := by
  refine ⟨?_, rmdir_eq, fun s e p => rfl, fun s e d c => rfl, fun s e d => rfl,
    fun s e f => rfl, fun s e f g => rfl, fun s e fn dn data force ft => rfl,
    fun s e fn data ft => rfl, fun s e fn ft sep nl rl => rfl,
    ?_, ?_, ?_, ?_,
    fun s f s1 => (delete_file_error_cases s f s1).1,
    fun s f g s1 => (rename_file_error_cases s f g s1).1,
    fun s fn dn data force ft s1 => create_false_error s fn dn data force ft s1,
    fun s fn data ft s1 => update_false_error s fn data ft s1,
    fun s fn ft sep nl rl s1 => read_none_error s fn ft sep nl rl s1,
    fun s p h => dir_exists_true_error h,
    fun s d c => (cd_spec s d c).2,
    fun s f s1 => (delete_file_error_cases s f s1).2,
    fun s f g s1 => (rename_file_error_cases s f g s1).2⟩
  · intro s d h
    rw [mkdir_eq] at h ⊢
    by_cases h1 : d = ""
    · rw [if_pos h1] at h; simp at h
    · rw [if_neg h1] at h ⊢
      by_cases h2 : resolve s.cwd d ∈ s.dirs
      · rw [if_pos h2] at h; simp at h
      · rw [if_neg h2]
  · intro s p h
    rw [dir_exists_false_state h]
    exact (by decide : oserrMsg ≠ "")
  · intro s d c h
    rw [(cd_spec s d c).1 h]
    exact append_ne_empty_left _ (by decide)
  · intro s d h
    rw [mkdir_eq] at h ⊢
    by_cases h1 : d = ""
    · rw [if_pos h1] at h ⊢
      exact (by decide : ("dir_name is empty" : String) ≠ "")
    · rw [if_neg h1] at h ⊢
      by_cases h2 : resolve s.cwd d ∈ s.dirs
      · rw [if_pos h2]
        exact append_ne_empty_right _ (by decide)
      · rw [if_neg h2] at h; simp at h
  · intro s d h
    rw [rmdir_eq] at h ⊢
    by_cases h1 : d ≠ "" ∧ resolve s.cwd d ∈ s.dirs
    · rw [if_pos h1] at h; simp at h
    · rw [if_neg h1]
      exact append_ne_empty_right _ (by decide)

/-- C2 (witness): the amended discipline applied at a concrete state — a
successful `mkdir` leaves the benign OSError message in the field. -/
theorem error_field_discipline_witness :
    (mkdir st0 "d").2.error = oserrMsg :=
  error_field_discipline.1 st0 "d" (by decide)

/-- C3: `get_error` returns the stored error and leaves the state alone
when the stored string does not contain `'OSError'`; when it does, the
field is cleared first and the cleared (empty) value is what is
returned.  In the benign case the error therefore persists across
repeated `get_error` calls. -/
theorem get_error_spec :
    ∀ s : St,
      (get_error s =
        ((if strContains s.error "OSError" then "" else s.error),
         (if strContains s.error "OSError" then { s with error := "" } else s))) ∧
      (strContains s.error "OSError" = false →
        (get_error s).1 = s.error ∧ (get_error s).2 = s ∧
        (get_error (get_error s).2).1 = s.error) := by
  intro s
  constructor
  · unfold get_error
    by_cases h : strContains s.error "OSError"
    · simp [h]
    · simp [h]
  · intro h
    have h2 : get_error s = (s.error, s) := by
      unfold get_error
      simp [h]
    rw [h2]
    exact ⟨rfl, rfl, by simp [h2]⟩

/-- C3 (witness): a stored message without the `OSError` marker is
returned as-is. -/
theorem get_error_spec_witness :
    (get_error ⟨["/"], [], "/", "plain failure"⟩).1 = "plain failure" :=
  ((get_error_spec ⟨["/"], [], "/", "plain failure"⟩).2 (by decide)).1

/-- C4 (counterexample): the claim says no exception escapes any public
method, naming in particular `_create` with `force=True`.  But the
unguarded `uos.mkdir` on line 570 sits outside the `try`, so
`create_file(..., force=True)` on an already-existing directory raises
out of the public method. -/
theorem create_force_existing_dir_raises :
    create_file ⟨["/", "/d"], [], "/", ""⟩ "a.txt" "/d" (.str "Hi") true = .error () :=
  rfl

/-- C4 (amended): with absolute path arguments (or plain names, given an
absolute current directory) no exception escapes `file_exists`,
`exists`, `delete_file`, `rename_file`, `_update` or `_read`; `_create`
with `force=False` never raises; the exceptions are `_create` with
`force=True` when the forced `uos.mkdir` fails (see the counterexample)
and the static `dir`, which raises exactly when the listed path does not
resolve to an existing directory. -/
theorem no_exception_propagation_amended :
    (∀ (s : St) (f p : String), isAbs p = true → ∃ r, file_exists s f p = .ok r) ∧
    (∀ (s : St) (fp : String), isAbs fp = true → ∃ r, «exists» s fp = .ok r) ∧
    (∀ (s : St) (fn : String), isAbs s.cwd = true →
      (containsSlash fn = true → isAbs fn = true) → ∃ r, delete_file s fn = .ok r) ∧
    (∀ (s : St) (fn nn : String), isAbs s.cwd = true →
      (containsSlash fn = true → isAbs fn = true) → ∃ r, rename_file s fn nn = .ok r) ∧
    (∀ (s : St) (fn : String) (data : PData) (ft : String), isAbs s.cwd = true →
      (containsSlash fn = true → isAbs fn = true) → ∃ r, _update s fn data ft = .ok r) ∧
    (∀ (s : St) (fn ft sep nl : String) (rl : Bool), isAbs s.cwd = true →
      (containsSlash fn = true → isAbs fn = true) → ∃ r, _read s fn ft sep nl rl = .ok r) ∧
    (∀ (s : St) (fn dn : String) (data : PData) (ft : String),
      ∃ r, _create s fn dn data false ft = .ok r) ∧
    (∀ (s : St) (p : String), (∃ l, dir s p = .ok l) ↔ (p ≠ "" ∧ resolve s.cwd p ∈ s.dirs)) :=
  ⟨file_exists_abs_ok, exists_abs_ok,
   fun s fn h1 h2 => delete_file_abs_ok s fn h1 h2,
   fun s fn nn h1 h2 => rename_file_abs_ok s fn nn h1 h2,
   fun s fn data ft h1 h2 => update_abs_ok s fn data ft h1 h2,
   fun s fn ft sep nl rl h1 h2 => read_abs_ok s fn ft sep nl rl h1 h2,
   create_noforce_ok, dir_ok_iff⟩

/-- C4 (witness): deleting an existing file through an absolute path
neither raises nor gets stuck. -/
theorem no_exception_propagation_witness :
    ∃ r, delete_file ⟨["/", "/sd"], [("/sd/a.txt", "X")], "/", ""⟩ "/sd/a.txt" = .ok r :=
  no_exception_propagation_amended.2.2.1 ⟨["/", "/sd"], [("/sd/a.txt", "X")], "/", ""⟩
    "/sd/a.txt" (by decide) (by decide)

/-- C5: `mkdir` fails with an error on an empty name; fails with the
`already exists` message when the directory exists; on a fresh valid
name it returns `True`, after which `dir_exists` of that name holds and
a second `mkdir` of the same name fails with the `already exists`
error. -/
theorem mkdir_behaviour (s : St) (d : String) (hd : d ≠ "")
    (hfresh : resolve s.cwd d ∉ s.dirs) :
    ((mkdir s "").1 = false ∧ (mkdir s "").2.error ≠ "") ∧
    (∀ d2, d2 ≠ "" → resolve s.cwd d2 ∈ s.dirs →
      (mkdir s d2).1 = false ∧ (mkdir s d2).2.error = d2 ++ " already exists") ∧
    (mkdir s d).1 = true ∧
    (dir_exists (mkdir s d).2 d).1 = true ∧
    (mkdir (mkdir s d).2 d).1 = false ∧
    (mkdir (mkdir s d).2 d).2.error = d ++ " already exists" := by
  have h1 := mkdir_eq s d
  rw [if_neg hd, if_neg hfresh] at h1
  refine ⟨?_, ?_, ?_, ?_, ?_, ?_⟩
  · rw [mkdir_eq, if_pos rfl]
    exact ⟨rfl, show ("dir_name is empty" : String) ≠ "" by decide⟩
  · intro d2 h2 h3
    rw [mkdir_eq, if_neg h2, if_pos h3]
    exact ⟨rfl, rfl⟩
  · rw [h1]
  · rw [h1, dir_exists_eq,
        if_pos ⟨hd, (List.mem_cons_self _ _ :
          resolve s.cwd d ∈ resolve s.cwd d :: s.dirs)⟩]
  · rw [h1, mkdir_eq, if_neg hd,
        if_pos (List.mem_cons_self _ _ :
          resolve s.cwd d ∈ resolve s.cwd d :: s.dirs)]
  · rw [h1, mkdir_eq, if_neg hd,
        if_pos (List.mem_cons_self _ _ :
          resolve s.cwd d ∈ resolve s.cwd d :: s.dirs)]

/-- C5 (witness): the behaviour at the fresh state and name `d`. -/
theorem mkdir_behaviour_witness :
    (mkdir st0 "d").1 = true ∧ (mkdir (mkdir st0 "d").2 "d").1 = false :=
  ⟨(mkdir_behaviour st0 "d" (by decide) (by decide)).2.2.1,
   (mkdir_behaviour st0 "d" (by decide) (by decide)).2.2.2.2.1⟩

/-- C6: `update_file` appends — two successive updates with `'Hi'`-style
string payloads leave the file holding the old contents followed by the
two fragments in call order; and `_update` on a target that fails the
`exists` check returns `False` with an error recorded. -/
theorem update_file_append_behaviour (s : St) (q f old c1 c2 : String)
    (hsplit : splitAtLastSlash (q ++ "/" ++ f) = some (q, f))
    (hslash : containsSlash (q ++ "/" ++ f) = true)
    (habs : isAbs (q ++ "/" ++ f) = true)
    (hqabs : isAbs q = true)
    (hq : q ∈ s.dirs)
    (hc1 : c1 ≠ "") (hc2 : c2 ≠ "")
    (hlook : s.files.lookup (q ++ "/" ++ f) = some old) :
    (∃ s1 s2,
      update_file s (q ++ "/" ++ f) (.str c1) = .ok (true, s1) ∧
      update_file s1 (q ++ "/" ++ f) (.str c2) = .ok (true, s2) ∧
      getFile s2 (q ++ "/" ++ f) = some (old ++ c1 ++ c2)) ∧
    (∀ (s3 : St) (fn2 f2 : String) (data : PData),
      splitAtLastSlash fn2 = some ("", f2) → containsSlash fn2 = true →
      ∃ s4, update_file s3 fn2 data = .ok (false, s4) ∧ s4.error ≠ "") := by
  constructor
  · have h1 := update_once s q f old c1 hsplit hslash habs hqabs hq hc1 hlook
    have h2 := update_once
      (⟨s.dirs,
        (q ++ "/" ++ f, old ++ c1) :: s.files.filter (fun kv => kv.1 ≠ q ++ "/" ++ f),
        q, ""⟩ : St)
      q f (old ++ c1) c2 hsplit hslash habs hqabs hq hc2 (by simp [List.lookup])
    exact ⟨_, _, h1, h2, by simp [getFile, List.lookup]⟩
  · intro s3 fn2 f2 data hsp2 hsl2
    have hde : dir_exists s3 "" = (false, { s3 with error := oserrMsg }) := by
      rw [dir_exists_eq]
      rw [if_neg (by simp)]
    have hex : «exists» s3 fn2 = .ok (false, { s3 with error := oserrMsg }) := by
      simp only [«exists», hsp2, dir_exists_clean, hde]
      simp
    simp only [update_file, _update, hsl2, Bool.true_eq_false, if_false, exists_clean, hex]
    exact ⟨_, rfl, append_ne_empty_right _ (by decide)⟩

/-- C6 (witness): updating `/sd/a.txt` (contents `X`) with `Hi` then
`world` leaves `XHiworld`; updating a bare root path fails. -/
theorem update_file_append_witness :
    (∃ s1 s2,
      update_file ⟨["/", "/sd"], [("/sd/a.txt", "X")], "/", ""⟩ ("/sd" ++ "/" ++ "a.txt")
          (.str "Hi") = .ok (true, s1) ∧
      update_file s1 ("/sd" ++ "/" ++ "a.txt") (.str "world") = .ok (true, s2) ∧
      getFile s2 ("/sd" ++ "/" ++ "a.txt") = some ("X" ++ "Hi" ++ "world")) ∧
    (∃ s4, update_file ⟨["/", "/sd"], [("/sd/a.txt", "X")], "/", ""⟩ "/zz.txt" (.str "Hi") =
        .ok (false, s4) ∧ s4.error ≠ "") :=
  ⟨(update_file_append_behaviour ⟨["/", "/sd"], [("/sd/a.txt", "X")], "/", ""⟩
      "/sd" "a.txt" "X" "Hi" "world" (by decide) (by decide) (by decide) (by decide)
      (by decide) (by decide) (by decide) (by decide)).1,
   (update_file_append_behaviour ⟨["/", "/sd"], [("/sd/a.txt", "X")], "/", ""⟩
      "/sd" "a.txt" "X" "Hi" "world" (by decide) (by decide) (by decide) (by decide)
      (by decide) (by decide) (by decide) (by decide)).2
     ⟨["/", "/sd"], [("/sd/a.txt", "X")], "/", ""⟩ "/zz.txt" "zz.txt" (.str "Hi")
     (by decide) (by decide)⟩

/-- C7: the claim's round trip `create_json('a.json', data)` then
`read_json('a.json')` does not return the mapping on the code: the
create succeeds (writing `/a.json` from the root working directory), but
`read_json` prefixes the bare name with `getcwd()` and the resulting
`/a.json` fails the `exists()` check (its directory part is the empty
string, and `chdir('')` raises), so the read returns `False` with an
error — even though serialization composed with parsing is the identity
on the mapping, as the last conjunct shows.  The module docstring
advertises exactly this create-then-read flow, so the code contradicts
its own documentation. -/
theorem json_roundtrip_bare_name_fails :
    create_json st0 "a.json" ""
        (.dict (.obj [("name", .str "John"), ("age", .int 12)])) false =
      .ok (true, ⟨["/"],
        [("/a.json", "\x7b\x22name\x22: \x22John\x22, \x22age\x22: 12\x7d")], "/", ""⟩) ∧
    read_json ⟨["/"],
        [("/a.json", "\x7b\x22name\x22: \x22John\x22, \x22age\x22: 12\x7d")], "/", ""⟩
        "a.json" =
      .ok (none, ⟨["/"],
        [("/a.json", "\x7b\x22name\x22: \x22John\x22, \x22age\x22: 12\x7d")], "/",
        "/a.json not exists"⟩) ∧
    ("/a.json not exists" : String) ≠ "" ∧
    jsonLoads (jsonDumps (.obj [("name", .str "John"), ("age", .int 12)])) =
      some (.obj [("name", .str "John"), ("age", .int 12)]) :=
  ⟨rfl, rfl, by decide, rfl⟩

/-- C8: the CSV round trip with row-as-list input: writing the rows
`[[n, a], [John, 22]]` with separator `;` produces the file contents
`n;a\nJohn;22\n` (each list row joined with the separator and terminated
by the newline), reading with `row_list=True` yields the original rows,
reading without yields the joined strings, and `_str_join` converts
non-string cells with `str()`. -/
theorem csv_roundtrip_behaviour :
    create_csv st0 "a.csv" "/d"
        (.lst [.lst [.str "n", .str "a"], .lst [.str "John", .str "22"]]) true =
      .ok (true, ⟨["/d", "/"], [("/d/a.csv", "n;a\nJohn;22\n")], "/", oserrMsg⟩) ∧
    read_csv ⟨["/d", "/"], [("/d/a.csv", "n;a\nJohn;22\n")], "/", oserrMsg⟩
        "/d/a.csv" ";" "\n" true =
      .ok (some (.table [["n", "a"], ["John", "22"]]),
        ⟨["/d", "/"], [("/d/a.csv", "n;a\nJohn;22\n")], "/d", ""⟩) ∧
    read_csv ⟨["/d", "/"], [("/d/a.csv", "n;a\nJohn;22\n")], "/", oserrMsg⟩
        "/d/a.csv" ";" "\n" false =
      .ok (some (.lines ["n;a", "John;22"]),
        ⟨["/d", "/"], [("/d/a.csv", "n;a\nJohn;22\n")], "/d", ""⟩) ∧
    _str_join [.str "John", .int 22, .bool true] ";" = "John;22;True" :=
  ⟨rfl, rfl, rfl, rfl⟩

/-- C9: `dir_exists` returns a boolean for every input — `True` exactly
when changing into the path succeeds (the path is non-empty and resolves
to an existing directory); on success the working directory stays
changed to the probed path (nothing restores it), on failure the working
directory is untouched and the OSError message is recorded. -/
theorem dir_exists_probe_spec :
    ∀ (s : St) (p : String),
      ((dir_exists s p).1 = true ↔ (p ≠ "" ∧ resolve s.cwd p ∈ s.dirs)) ∧
      ((dir_exists s p).1 = true →
        (dir_exists s p).2 = { s with cwd := resolve s.cwd p, error := "" }) ∧
      ((dir_exists s p).1 = false →
        (dir_exists s p).2.cwd = s.cwd ∧ (dir_exists s p).2.error = oserrMsg) := by
  intro s p
  refine ⟨dir_exists_fst_iff, dir_exists_true_state, fun h => ?_⟩
  rw [dir_exists_false_state h]
  exact ⟨rfl, rfl⟩

/-- C9 (witness): probing `/d` from `/` succeeds and leaves the working
directory at `/d`. -/
theorem dir_exists_probe_witness :
    (dir_exists ⟨["/", "/d"], [], "/", "x"⟩ "/d").1 = true ∧
    (dir_exists ⟨["/", "/d"], [], "/", "x"⟩ "/d").2 = ⟨["/", "/d"], [], "/d", ""⟩ :=
  ⟨(dir_exists_probe_spec ⟨["/", "/d"], [], "/", "x"⟩ "/d").1.mpr (by decide),
   (dir_exists_probe_spec ⟨["/", "/d"], [], "/", "x"⟩ "/d").2.1
     ((dir_exists_probe_spec ⟨["/", "/d"], [], "/", "x"⟩ "/d").1.mpr (by decide))⟩

/-- C10: `is_file` returns `False` on every input — the `finally`
block's `return False` overrides the `try` block's `return True` — in
particular also for a file that exists and opens fine (second and third
conjuncts). -/
theorem is_file_always_false :
    (∀ (s : St) (n : String), is_file s n = false) ∧
    (getFile ⟨["/", "/sd"], [("/sd/a.txt", "X")], "/", ""⟩ "/sd/a.txt").isSome = true ∧
    is_file ⟨["/", "/sd"], [("/sd/a.txt", "X")], "/", ""⟩ "/sd/a.txt" = false := by
  refine ⟨fun s n => ?_, rfl, rfl⟩
  unfold is_file
  cases openRead s n <;> rfl

end SdSpec
